import Mathlib

/-!
Verification of the Japanese morphological classification and
conjugation-generation engine of the vocabvault repository
(src/lib/configuration.ts, the detectCategory routine of
src/app/api/dictionary/lookup/route.ts, and the conjugation dispatch of
the word-detail dialog component).

Readings and tag strings are modelled as lists of characters; JavaScript
string primitives (includes, endsWith, slice) are modelled by the js*
helpers below with the same semantics on lists of characters.
-/

namespace VocabVault

/-- The character list of a string literal (JavaScript strings are modelled
as lists of characters). -/
def cs (s : String) : List Char := s.toList

/-- JavaScript String.prototype.includes, on lists of characters: the
needle occurs as a contiguous run inside the haystack. -/
def jsIncludes (hay needle : List Char) : Bool :=
  match hay with
  | [] => needle.isPrefixOf []
  | _ :: t => needle.isPrefixOf hay || jsIncludes t needle

/-- JavaScript String.prototype.endsWith, on lists of characters. -/
def jsEndsWith (s suff : List Char) : Bool :=
  decide (suff <:+ s)

/-- JavaScript s.slice(0, -1): the string without its final character. -/
def jsSliceDropLast (s : List Char) : List Char := s.dropLast

/-- JavaScript s.slice(-1): the final character as a one-character string,
or the empty string when s is empty. -/
def jsSliceLast (s : List Char) : List Char := s.drop (s.length - 1)

/-- JavaScript array.join(" "). -/
def jsJoinSpace : List (List Char) → List Char
  | [] => []
  | [t] => t
  | t :: ts => t ++ ' ' :: jsJoinSpace ts

/-- JavaScript String.prototype.toLowerCase (ASCII range, which covers the
tag keywords the engine searches for). -/
def jsToLower (s : List Char) : List Char := s.map Char.toLower

/-- One row of a conjugation table: configuration.ts interface
VerbConjugation with fields form, japanese, romaji, usage. -/
structure VerbConjugation where
  form : String
  japanese : List Char
  romaji : String
  usage : String
deriving DecidableEq, Repr

/-- The ichiSounds array of detectVerbType (configuration.ts lines 26-53),
in source order: each entry is a one-character string. -/
def ichiSounds : List (List Char) :=
  [cs "い", cs "え", cs "き", cs "け", cs "ぎ", cs "げ", cs "し", cs "せ",
   cs "じ", cs "ぜ", cs "ち", cs "て", cs "ぢ", cs "で", cs "に", cs "ね",
   cs "ひ", cs "へ", cs "び", cs "べ", cs "ぴ", cs "ぺ", cs "み", cs "め",
   cs "り", cs "れ"]

/-- detectVerbType of configuration.ts lines 4-82: tag-based override
first, then ending-based fallback. Returns null (none) when undetermined. -/
def detectVerbType (hiragana : List Char) (tags : List (List Char)) : Option String :=
  let tagStr := jsToLower (jsJoinSpace tags)
  if jsIncludes tagStr (cs "godan") || jsIncludes tagStr (cs "v5") then
    some "godan"
  else if jsIncludes tagStr (cs "ichidan") || jsIncludes tagStr (cs "v1") then
    some "ichidan"
  else if jsIncludes tagStr (cs "suru") || jsIncludes tagStr (cs "vs") then
    some "suru"
  else if jsIncludes tagStr (cs "kuru") || jsIncludes tagStr (cs "vk") then
    some "kuru"
  else if jsEndsWith hiragana (cs "る") then
    let stem := jsSliceDropLast hiragana
    let lastChar := jsSliceLast stem
    if ichiSounds.any (fun s => jsIncludes lastChar s || jsEndsWith stem s) then
      some "ichidan"
    else
      some "godan"
  else if jsEndsWith hiragana (cs "う") || jsEndsWith hiragana (cs "く") ||
      jsEndsWith hiragana (cs "す") || jsEndsWith hiragana (cs "つ") ||
      jsEndsWith hiragana (cs "ぬ") || jsEndsWith hiragana (cs "ぶ") ||
      jsEndsWith hiragana (cs "む") || jsEndsWith hiragana (cs "ぐ") then
    some "godan"
  else if jsEndsWith hiragana (cs "する") then
    some "suru"
  else if hiragana = cs "くる" ∨ hiragana = cs "来る" then
    some "kuru"
  else
    none

/-- generateIchidanConjugations of configuration.ts lines 107-125. -/
def generateIchidanConjugations (stem : List Char) : List VerbConjugation :=
  [⟨"Dictionary", stem ++ cs "る", "", "Plain present/future"⟩,
   ⟨"Masu", stem ++ cs "ます", "", "Polite present/future"⟩,
   ⟨"Te-form", stem ++ cs "て", "", "Connecting, requests"⟩,
   ⟨"Ta-form", stem ++ cs "た", "", "Plain past"⟩,
   ⟨"Mashita", stem ++ cs "ました", "", "Polite past"⟩,
   ⟨"Nai-form", stem ++ cs "ない", "", "Plain negative"⟩,
   ⟨"Masen", stem ++ cs "ません", "", "Polite negative"⟩,
   ⟨"Nakatta", stem ++ cs "なかった", "", "Plain past negative"⟩,
   ⟨"Potential", stem ++ cs "られる", "", "Can do"⟩,
   ⟨"Passive", stem ++ cs "られる", "", "Is done"⟩,
   ⟨"Causative", stem ++ cs "させる", "", "Make/let do"⟩,
   ⟨"Imperative", stem ++ cs "ろ", "", "Command"⟩,
   ⟨"Volitional", stem ++ cs "よう", "", "Let\x27s do"⟩,
   ⟨"Conditional", stem ++ cs "れば", "", "If"⟩,
   ⟨"Tara-form", stem ++ cs "たら", "", "If/when"⟩]

/-- One row of the godan mappings record of configuration.ts lines 132-235:
the eight phonetic fragments keyed by the final mora of the reading. -/
structure GodanRow where
  masu : List Char
  te : List Char
  ta : List Char
  nai : List Char
  potential : List Char
  volitional : List Char
  imperative : List Char
  conditional : List Char
deriving DecidableEq, Repr

/-- The う row of the godan mappings record. -/
def godanRowU : GodanRow :=
  ⟨cs "い", cs "って", cs "った", cs "わ", cs "え", cs "お", cs "え", cs "え"⟩

/-- The く row of the godan mappings record. -/
def godanRowKu : GodanRow :=
  ⟨cs "き", cs "いて", cs "いた", cs "か", cs "け", cs "こ", cs "け", cs "け"⟩

/-- The ぐ row of the godan mappings record. -/
def godanRowGu : GodanRow :=
  ⟨cs "ぎ", cs "いで", cs "いだ", cs "が", cs "げ", cs "ご", cs "げ", cs "げ"⟩

/-- The す row of the godan mappings record. -/
def godanRowSu : GodanRow :=
  ⟨cs "し", cs "して", cs "した", cs "さ", cs "せ", cs "そ", cs "せ", cs "せ"⟩

/-- The つ row of the godan mappings record. -/
def godanRowTsu : GodanRow :=
  ⟨cs "ち", cs "って", cs "った", cs "た", cs "て", cs "と", cs "て", cs "て"⟩

/-- The ぬ row of the godan mappings record. -/
def godanRowNu : GodanRow :=
  ⟨cs "に", cs "んで", cs "んだ", cs "な", cs "ね", cs "の", cs "ね", cs "ね"⟩

/-- The ぶ row of the godan mappings record. -/
def godanRowBu : GodanRow :=
  ⟨cs "び", cs "んで", cs "んだ", cs "ば", cs "べ", cs "ぼ", cs "べ", cs "べ"⟩

/-- The む row of the godan mappings record. -/
def godanRowMu : GodanRow :=
  ⟨cs "み", cs "んで", cs "んだ", cs "ま", cs "め", cs "も", cs "め", cs "め"⟩

/-- The る row of the godan mappings record. -/
def godanRowRu : GodanRow :=
  ⟨cs "り", cs "って", cs "った", cs "ら", cs "れ", cs "ろ", cs "れ", cs "れ"⟩

/-- Lookup in the godan mappings record by the final one-character mora:
mappings[ending] of configuration.ts, none when the key is absent. -/
def godanMappings (ending : List Char) : Option GodanRow :=
  if ending = cs "う" then some godanRowU
  else if ending = cs "く" then some godanRowKu
  else if ending = cs "ぐ" then some godanRowGu
  else if ending = cs "す" then some godanRowSu
  else if ending = cs "つ" then some godanRowTsu
  else if ending = cs "ぬ" then some godanRowNu
  else if ending = cs "ぶ" then some godanRowBu
  else if ending = cs "む" then some godanRowMu
  else if ending = cs "る" then some godanRowRu
  else none

/-- generateGodanConjugations of configuration.ts lines 127-261:
mappings[ending] with the る row as fallback, and the いく/行く special
case for the te and ta forms. -/
def generateGodanConjugations (hiragana : List Char) : List VerbConjugation :=
  let ending := jsSliceLast hiragana
  let stem := jsSliceDropLast hiragana
  let map := (godanMappings ending).getD godanRowRu
  let teForm := if hiragana = cs "いく" ∨ hiragana = cs "行く" then stem ++ cs "って"
                else stem ++ map.te
  let taForm := if hiragana = cs "いく" ∨ hiragana = cs "行く" then stem ++ cs "った"
                else stem ++ map.ta
  [⟨"Dictionary", hiragana, "", "Plain present/future"⟩,
   ⟨"Masu", stem ++ map.masu ++ cs "ます", "", "Polite present/future"⟩,
   ⟨"Te-form", teForm, "", "Connecting, requests"⟩,
   ⟨"Ta-form", taForm, "", "Plain past"⟩,
   ⟨"Mashita", stem ++ map.masu ++ cs "ました", "", "Polite past"⟩,
   ⟨"Nai-form", stem ++ map.nai ++ cs "ない", "", "Plain negative"⟩,
   ⟨"Masen", stem ++ map.masu ++ cs "ません", "", "Polite negative"⟩,
   ⟨"Nakatta", stem ++ map.nai ++ cs "なかった", "", "Plain past negative"⟩,
   ⟨"Potential", stem ++ map.potential ++ cs "る", "", "Can do"⟩,
   ⟨"Passive", stem ++ map.nai ++ cs "れる", "", "Is done"⟩,
   ⟨"Causative", stem ++ map.nai ++ cs "せる", "", "Make/let do"⟩,
   ⟨"Imperative", stem ++ map.imperative, "", "Command"⟩,
   ⟨"Volitional", stem ++ map.volitional ++ cs "う", "", "Let\x27s do"⟩,
   ⟨"Conditional", stem ++ map.conditional ++ cs "ば", "", "If"⟩,
   ⟨"Tara-form", taForm ++ cs "ら", "", "If/when"⟩]

/-- generateSuruConjugations of configuration.ts lines 263-285: the stem
(the reading without its final る) loses a trailing す when present, and
an empty base still yields the empty string as the compound part. -/
def generateSuruConjugations (stem : List Char) : List VerbConjugation :=
  let base := if jsEndsWith stem (cs "す") then jsSliceDropLast stem else stem
  let pref := if base.isEmpty then ([] : List Char) else base
  [⟨"Dictionary", pref ++ cs "する", "", "Plain present/future"⟩,
   ⟨"Masu", pref ++ cs "します", "", "Polite present/future"⟩,
   ⟨"Te-form", pref ++ cs "して", "", "Connecting, requests"⟩,
   ⟨"Ta-form", pref ++ cs "した", "", "Plain past"⟩,
   ⟨"Mashita", pref ++ cs "しました", "", "Polite past"⟩,
   ⟨"Nai-form", pref ++ cs "しない", "", "Plain negative"⟩,
   ⟨"Masen", pref ++ cs "しません", "", "Polite negative"⟩,
   ⟨"Nakatta", pref ++ cs "しなかった", "", "Plain past negative"⟩,
   ⟨"Potential", pref ++ cs "できる", "", "Can do"⟩,
   ⟨"Passive", pref ++ cs "される", "", "Is done"⟩,
   ⟨"Causative", pref ++ cs "させる", "", "Make/let do"⟩,
   ⟨"Imperative", pref ++ cs "しろ", "", "Command"⟩,
   ⟨"Volitional", pref ++ cs "しよう", "", "Let\x27s do"⟩,
   ⟨"Conditional", pref ++ cs "すれば", "", "If"⟩,
   ⟨"Tara-form", pref ++ cs "したら", "", "If/when"⟩]

/-- generateKuruConjugations of configuration.ts lines 287-305: the fully
hard-coded table of the irregular verb くる. -/
def generateKuruConjugations : List VerbConjugation :=
  [⟨"Dictionary", cs "くる", "kuru", "Plain present/future"⟩,
   ⟨"Masu", cs "きます", "kimasu", "Polite present/future"⟩,
   ⟨"Te-form", cs "きて", "kite", "Connecting, requests"⟩,
   ⟨"Ta-form", cs "きた", "kita", "Plain past"⟩,
   ⟨"Mashita", cs "きました", "kimashita", "Polite past"⟩,
   ⟨"Nai-form", cs "こない", "konai", "Plain negative"⟩,
   ⟨"Masen", cs "きません", "kimasen", "Polite negative"⟩,
   ⟨"Nakatta", cs "こなかった", "konakatta", "Plain past negative"⟩,
   ⟨"Potential", cs "こられる", "korareru", "Can do"⟩,
   ⟨"Passive", cs "こられる", "korareru", "Is done"⟩,
   ⟨"Causative", cs "こさせる", "kosaseru", "Make/let do"⟩,
   ⟨"Imperative", cs "こい", "koi", "Command"⟩,
   ⟨"Volitional", cs "こよう", "koyou", "Let\x27s do"⟩,
   ⟨"Conditional", cs "くれば", "kureba", "If"⟩,
   ⟨"Tara-form", cs "きたら", "kitara", "If/when"⟩]

/-- generateConjugations of configuration.ts lines 85-105: dispatch on the
verb type string, empty table for any other verb type. -/
def generateConjugations (hiragana : List Char) (verbType : String) : List VerbConjugation :=
  let stem := jsSliceDropLast hiragana
  if verbType = "ichidan" then generateIchidanConjugations stem
  else if verbType = "godan" then generateGodanConjugations hiragana
  else if verbType = "suru" then generateSuruConjugations stem
  else if verbType = "kuru" then generateKuruConjugations
  else []

/-- generateIAdjectiveConjugations of configuration.ts lines 308-323. -/
def generateIAdjectiveConjugations (hiragana : List Char) : List VerbConjugation :=
  let stem := jsSliceDropLast hiragana
  [⟨"Dictionary", hiragana, "", "Plain present"⟩,
   ⟨"Polite", stem ++ cs "いです", "", "Polite present"⟩,
   ⟨"Past", stem ++ cs "かった", "", "Plain past"⟩,
   ⟨"Past Polite", stem ++ cs "かったです", "", "Polite past"⟩,
   ⟨"Negative", stem ++ cs "くない", "", "Plain negative"⟩,
   ⟨"Neg. Polite", stem ++ cs "くないです", "", "Polite negative"⟩,
   ⟨"Past Neg.", stem ++ cs "くなかった", "", "Plain past neg."⟩,
   ⟨"Te-form", stem ++ cs "くて", "", "Connecting"⟩,
   ⟨"Adverb", stem ++ cs "く", "", "Adverbial form"⟩,
   ⟨"Conditional", stem ++ cs "ければ", "", "If"⟩]

/-- generateNaAdjectiveConjugations of configuration.ts lines 326-339. -/
def generateNaAdjectiveConjugations (hiragana : List Char) : List VerbConjugation :=
  [⟨"Dictionary", hiragana, "", "Plain/attributive"⟩,
   ⟨"Polite", hiragana ++ cs "です", "", "Polite present"⟩,
   ⟨"Past", hiragana ++ cs "だった", "", "Plain past"⟩,
   ⟨"Past Polite", hiragana ++ cs "でした", "", "Polite past"⟩,
   ⟨"Negative", hiragana ++ cs "じゃない", "", "Plain negative"⟩,
   ⟨"Neg. Polite", hiragana ++ cs "じゃありません", "", "Polite negative"⟩,
   ⟨"Past Neg.", hiragana ++ cs "じゃなかった", "", "Plain past neg."⟩,
   ⟨"Te-form", hiragana ++ cs "で", "", "Connecting"⟩,
   ⟨"Adverb", hiragana ++ cs "に", "", "Adverbial form"⟩,
   ⟨"Attributive", hiragana ++ cs "な", "", "Before nouns"⟩]

/-- Result of detectCategory of the dictionary lookup route: a category
label and an optional verb sub-type. -/
structure CategoryResult where
  category : String
  verbType : Option String
deriving DecidableEq, Repr

/-- detectCategory of src/app/api/dictionary/lookup/route.ts lines
190-237: precedence-ordered substring matching over the joined,
lower-cased parts-of-speech strings. -/
def detectCategory (partsOfSpeech : List (List Char)) : CategoryResult :=
  let pos := jsToLower (jsJoinSpace partsOfSpeech)
  if jsIncludes pos (cs "ichidan") || jsIncludes pos (cs "v1") then
    ⟨"verb", some "ichidan"⟩
  else if jsIncludes pos (cs "godan") || jsIncludes pos (cs "v5") then
    ⟨"verb", some "godan"⟩
  else if jsIncludes pos (cs "suru") || jsIncludes pos (cs "vs-") then
    ⟨"verb", some "suru"⟩
  else if jsIncludes pos (cs "kuru") || jsIncludes pos (cs "vk") then
    ⟨"verb", some "kuru"⟩
  else if jsIncludes pos (cs "counter") then ⟨"counter", none⟩
  else if jsIncludes pos (cs "adverb") then ⟨"adverb", none⟩
  else if jsIncludes pos (cs "particle") then ⟨"particle", none⟩
  else if jsIncludes pos (cs "expression") then ⟨"expression", none⟩
  else if jsIncludes pos (cs "i-adjective") || jsIncludes pos (cs "adj-i") then
    ⟨"adjective-i", none⟩
  else if jsIncludes pos (cs "na-adjective") || jsIncludes pos (cs "adj-na") then
    ⟨"adjective-na", none⟩
  else if jsIncludes pos (cs "noun") then ⟨"noun", none⟩
  else if jsIncludes pos (cs "verb") then ⟨"verb", some "godan"⟩
  else ⟨"other", none⟩

/-- JavaScript truthiness of an optional string: null and the empty
string are falsy. -/
def jsTruthy : Option String → Bool
  | none => false
  | some s => decide (s ≠ "")

/-- The conjugation dispatch of the word-detail dialog component: verbs
with a truthy verb sub-type go to generateConjugations, the two adjective
classes to their generators, and every other category yields the empty
list. -/
def wordDetailConjugations (category : String) (verb_type : Option String)
    (hiragana : List Char) : List VerbConjugation :=
  if category = "verb" ∧ jsTruthy verb_type = true then
    generateConjugations hiragana (verb_type.getD "")
  else if category = "adjective-i" then generateIAdjectiveConjugations hiragana
  else if category = "adjective-na" then generateNaAdjectiveConjugations hiragana
  else []

/-- The pair of form label and surface text at a given index of a
conjugation table. -/
def pairAt (t : List VerbConjugation) (i : Nat) : Option (String × List Char) :=
  (t.get? i).map (fun c => (c.form, c.japanese))

/-- The disjunction of the tag conditions of the tag-based override of
detectVerbType: some tag contains godan, v5, ichidan, v1, suru, vs, kuru
or vk after joining and lower-casing. -/
def hasVerbTypeTag (tags : List (List Char)) : Bool :=
  let tagStr := jsToLower (jsJoinSpace tags)
  jsIncludes tagStr (cs "godan") || jsIncludes tagStr (cs "v5") ||
  jsIncludes tagStr (cs "ichidan") || jsIncludes tagStr (cs "v1") ||
  jsIncludes tagStr (cs "suru") || jsIncludes tagStr (cs "vs") ||
  jsIncludes tagStr (cs "kuru") || jsIncludes tagStr (cs "vk")

/-- The disjunction of the verb sub-type keyword conditions of
detectCategory: the joined lower-cased parts of speech contain ichidan,
v1, godan, v5, suru, vs-, kuru or vk. -/
def hasVerbSubtypeKeyword (partsOfSpeech : List (List Char)) : Bool :=
  let pos := jsToLower (jsJoinSpace partsOfSpeech)
  jsIncludes pos (cs "ichidan") || jsIncludes pos (cs "v1") ||
  jsIncludes pos (cs "godan") || jsIncludes pos (cs "v5") ||
  jsIncludes pos (cs "suru") || jsIncludes pos (cs "vs-") ||
  jsIncludes pos (cs "kuru") || jsIncludes pos (cs "vk")

/-- The 24-element heuristic mora set exactly as the specification words
it, in the order the specification lists it. The source array ichiSounds
is the authority; this definition exists only to compare the
specification wording against the source. -/
def specIchidanMorae : List (List Char) :=
  [cs "い", cs "き", cs "ぎ", cs "し", cs "じ", cs "ち", cs "に", cs "ひ",
   cs "び", cs "ぴ", cs "え", cs "け", cs "げ", cs "せ", cs "ぜ", cs "て",
   cs "で", cs "ね", cs "へ", cs "べ", cs "ぺ", cs "め", cs "れ", cs "み"]

theorem endsWith_iff (s suff : List Char) : jsEndsWith s suff = true ↔ suff <:+ s := by
  simp [jsEndsWith]

theorem sliceDropLast_concat (l : List Char) (a : Char) :
    jsSliceDropLast (l ++ [a]) = l := by
  simp [jsSliceDropLast]

theorem sliceLast_concat (l : List Char) (a : Char) :
    jsSliceLast (l ++ [a]) = [a] := by
  simp [jsSliceLast]

theorem suffix_singleton (c a : Char) (l : List Char) :
    [c] <:+ l ++ [a] ↔ c = a := by
  constructor
  · rintro ⟨t, ht⟩
    have h2 : ([c] : List Char) = [a] := (List.append_inj' ht rfl).2
    simpa using h2
  · rintro rfl
    exact List.suffix_append l _

theorem jsIncludes_single (a c : Char) : jsIncludes [a] [c] = (c == a) := by
  have h : jsIncludes [a] [c] = ((c == a && true) || false) := rfl
  rw [h, Bool.and_true, Bool.or_false]

theorem cond_single_iff (stem : List Char) (c : Char) :
    (jsIncludes (jsSliceLast stem) [c] || jsEndsWith stem [c]) = true ↔
      jsSliceLast stem = [c] := by
  rcases List.eq_nil_or_concat stem with rfl | ⟨l, a, rfl⟩
  · rw [show jsSliceLast ([] : List Char) = [] from rfl,
        show jsIncludes [] [c] = false from rfl]
    simp [jsEndsWith, List.suffix_nil]
  · simp only [List.concat_eq_append, sliceLast_concat]
    rw [Bool.or_eq_true, jsIncludes_single,
        show jsEndsWith (l ++ [a]) [c] = decide ([c] <:+ (l ++ [a])) from rfl,
        decide_eq_true_eq, suffix_singleton]
    constructor
    · rintro (h | rfl)
      · have h2 : c = a := by simpa using h
        rw [h2]
      · rfl
    · intro h
      have h2 : a = c := by simpa using h
      exact Or.inr h2.symm

theorem ichi_any_iff (stem : List Char) :
    (ichiSounds.any fun s => jsIncludes (jsSliceLast stem) s || jsEndsWith stem s) = true ↔
      jsSliceLast stem ∈ ichiSounds := by
  rw [List.any_eq_true]
  constructor
  · rintro ⟨s, hs, hcond⟩
    have hlen : ∀ t ∈ ichiSounds, t.length = 1 := by decide
    obtain ⟨c, rfl⟩ := List.length_eq_one.mp (hlen s hs)
    rw [cond_single_iff] at hcond
    rw [hcond]
    exact hs
  · intro hm
    refine ⟨jsSliceLast stem, hm, ?_⟩
    have hlen : ∀ t ∈ ichiSounds, t.length = 1 := by decide
    obtain ⟨c, hc⟩ := List.length_eq_one.mp (hlen _ hm)
    rw [hc, jsIncludes_single]
    simp

theorem generate_godan_eq (x : List Char) :
    generateConjugations x "godan" = generateGodanConjugations x := rfl

theorem generate_ichidan_eq (x : List Char) :
    generateConjugations x "ichidan" = generateIchidanConjugations (jsSliceDropLast x) := rfl

theorem generate_suru_eq (x : List Char) :
    generateConjugations x "suru" = generateSuruConjugations (jsSliceDropLast x) := rfl

theorem generate_kuru_eq (x : List Char) :
    generateConjugations x "kuru" = generateKuruConjugations := rfl

/-- Claim C1: for verbType godan on reading のむ, generateConjugations
returns the table with Dictionary のむ, Masu のみます, Te-form のんで,
Ta-form のんだ, Nai-form のまない, Potential のめる, Imperative のめ,
Volitional のもう and Conditional のめば, each entry being the stem plus
the む-row fragment plus the fixed suffix. -/
theorem nomu_godan_table :
    (generateConjugations (cs "のむ") "godan").map (fun f => (f.form, f.japanese)) =
      [("Dictionary", cs "のむ"),
       ("Masu", cs "の" ++ godanRowMu.masu ++ cs "ます"),
       ("Te-form", cs "の" ++ godanRowMu.te),
       ("Ta-form", cs "の" ++ godanRowMu.ta),
       ("Mashita", cs "の" ++ godanRowMu.masu ++ cs "ました"),
       ("Nai-form", cs "の" ++ godanRowMu.nai ++ cs "ない"),
       ("Masen", cs "の" ++ godanRowMu.masu ++ cs "ません"),
       ("Nakatta", cs "の" ++ godanRowMu.nai ++ cs "なかった"),
       ("Potential", cs "の" ++ godanRowMu.potential ++ cs "る"),
       ("Passive", cs "の" ++ godanRowMu.nai ++ cs "れる"),
       ("Causative", cs "の" ++ godanRowMu.nai ++ cs "せる"),
       ("Imperative", cs "の" ++ godanRowMu.imperative),
       ("Volitional", cs "の" ++ godanRowMu.volitional ++ cs "う"),
       ("Conditional", cs "の" ++ godanRowMu.conditional ++ cs "ば"),
       ("Tara-form", cs "の" ++ godanRowMu.ta ++ cs "ら")] ∧
    ("Dictionary", cs "のむ") ∈ (generateConjugations (cs "のむ") "godan").map (fun f => (f.form, f.japanese)) ∧
    ("Masu", cs "のみます") ∈ (generateConjugations (cs "のむ") "godan").map (fun f => (f.form, f.japanese)) ∧
    ("Te-form", cs "のんで") ∈ (generateConjugations (cs "のむ") "godan").map (fun f => (f.form, f.japanese)) ∧
    ("Ta-form", cs "のんだ") ∈ (generateConjugations (cs "のむ") "godan").map (fun f => (f.form, f.japanese)) ∧
    ("Nai-form", cs "のまない") ∈ (generateConjugations (cs "のむ") "godan").map (fun f => (f.form, f.japanese)) ∧
    ("Potential", cs "のめる") ∈ (generateConjugations (cs "のむ") "godan").map (fun f => (f.form, f.japanese)) ∧
    ("Imperative", cs "のめ") ∈ (generateConjugations (cs "のむ") "godan").map (fun f => (f.form, f.japanese)) ∧
    ("Volitional", cs "のもう") ∈ (generateConjugations (cs "のむ") "godan").map (fun f => (f.form, f.japanese)) ∧
    ("Conditional", cs "のめば") ∈ (generateConjugations (cs "のむ") "godan").map (fun f => (f.form, f.japanese)) := by
  decide

/-- Claim C5: the specification says detectVerbType maps する-final
readings to suru and the literal くる and 来る to kuru when no tag
matches, and the source even contains branches returning suru and kuru
for exactly these readings, but those branches are unreachable: every
such reading ends in る and is already caught by the earlier る branch,
whose heuristic sends it to godan. The code therefore answers godan on
every one of these inputs. -/
theorem suru_kuru_branches_shadowed :
    detectVerbType (cs "する") [] = some "godan" ∧
    detectVerbType (cs "べんきょうする") [] = some "godan" ∧
    detectVerbType (cs "くる") [] = some "godan" ∧
    detectVerbType (cs "来る") [] = some "godan" ∧
    hasVerbTypeTag [] = false := by
  decide

/-- Claim C8: generateConjugations with verbType kuru is independent of
the reading argument and always yields the hard-coded 15-form くる
table. -/
theorem kuru_ignores_reading (r1 r2 : List Char) :
    generateConjugations r1 "kuru" = generateConjugations r2 "kuru" ∧
    (generateConjugations r1 "kuru").map (fun f => f.japanese) =
      [cs "くる", cs "きます", cs "きて", cs "きた", cs "きました", cs "こない",
       cs "きません", cs "こなかった", cs "こられる", cs "こられる", cs "こさせる",
       cs "こい", cs "こよう", cs "くれば", cs "きたら"] :=
  ⟨rfl, rfl⟩

/-- Claim C3 counterexample: the reading りる ends in る, carries no tag
keyword, and the final mora り of its stem is outside the 24-element set
the specification lists, so the claim demands godan; the source list
ichiSounds additionally contains り (and ぢ), and detectVerbType answers
ichidan. -/
theorem ru_heuristic_spec_set_counterexample :
    jsEndsWith (cs "りる") (cs "る") = true ∧
    hasVerbTypeTag [] = false ∧
    jsSliceLast (jsSliceDropLast (cs "りる")) ∉ specIchidanMorae ∧
    detectVerbType (cs "りる") [] = some "ichidan" := by
  decide

/-- Claim C3 amended: for every reading ending in る whose tags match no
verb-type keyword, detectVerbType returns ichidan exactly when the final
mora of the stem belongs to the 26-element source list ichiSounds, which
is the 24-element set of the specification together with ぢ and り, and
returns godan otherwise. -/
theorem ru_heuristic_amended (r : List Char) (tags : List (List Char))
    (ht : hasVerbTypeTag tags = false) (hr : jsEndsWith r (cs "る") = true) :
    detectVerbType r tags =
      some (if jsSliceLast (jsSliceDropLast r) ∈ ichiSounds then "ichidan" else "godan") := by
  simp only [hasVerbTypeTag, Bool.or_eq_false_iff] at ht
  obtain ⟨⟨⟨⟨⟨⟨⟨h1, h2⟩, h3⟩, h4⟩, h5⟩, h6⟩, h7⟩, h8⟩ := ht
  by_cases hm : jsSliceLast (jsSliceDropLast r) ∈ ichiSounds
  · have hany := (ichi_any_iff (jsSliceDropLast r)).mpr hm
    simp only [detectVerbType, h1, h2, h3, h4, h5, h6, h7, h8, hr, hany, hm,
      Bool.or_self, if_true, if_false, Bool.false_eq_true, ite_true, ite_false]
  · have hany : (ichiSounds.any fun s =>
        jsIncludes (jsSliceLast (jsSliceDropLast r)) s || jsEndsWith (jsSliceDropLast r) s) = false := by
      rw [Bool.eq_false_iff]
      intro hc
      exact hm ((ichi_any_iff (jsSliceDropLast r)).mp hc)
    simp only [detectVerbType, h1, h2, h3, h4, h5, h6, h7, h8, hr, hany, hm,
      Bool.or_self, if_true, if_false, Bool.false_eq_true, ite_true, ite_false]

/-- Claim C3 witness: the amended theorem applied to the reading たべる
with no tags yields ichidan, since べ is in the source list. -/
theorem ru_heuristic_amended_witness :
    detectVerbType (cs "たべる") [] = some "ichidan" := by
  have h := ru_heuristic_amended (cs "たべる") [] (by decide) (by decide)
  rw [h]
  decide

/-- Claim C4 counterexample: on the reading あ, which does not end in る,
generateConjugations with verbType ichidan puts る, not the original
reading, at index 0. -/
theorem ichidan_dictionary_counterexample :
    pairAt (generateConjugations (cs "あ") "ichidan") 0 = some ("Dictionary", cs "る") ∧
    cs "る" ≠ cs "あ" := by
  decide

/-- Claim C4 amended: for every reading, generateConjugations with
verbType ichidan returns exactly 15 forms, and whenever the reading ends
in る the form at index 0 is labelled Dictionary with surface text equal
to the original reading. -/
theorem ichidan_table_amended (r : List Char) :
    (generateConjugations r "ichidan").length = 15 ∧
    (jsEndsWith r (cs "る") = true →
      pairAt (generateConjugations r "ichidan") 0 = some ("Dictionary", r)) := by
  constructor
  · rw [generate_ichidan_eq]
    rfl
  · intro h
    obtain ⟨t, ht⟩ := (endsWith_iff r (cs "る")).mp h
    subst ht
    rw [generate_ichidan_eq,
        show (cs "る" : List Char) = ['る'] from rfl, sliceDropLast_concat]
    rfl

/-- Claim C4 witness: the amended theorem applied to the reading たべる,
whose table has 15 forms and whose Dictionary entry is たべる itself. -/
theorem ichidan_table_amended_witness :
    (generateConjugations (cs "たべる") "ichidan").length = 15 ∧
    pairAt (generateConjugations (cs "たべる") "ichidan") 0 = some ("Dictionary", cs "たべる") :=
  ⟨(ichidan_table_amended (cs "たべる")).1, (ichidan_table_amended (cs "たべる")).2 (by decide)⟩

/-- Claim C2: generateConjugations with verbType godan overrides the
generic く-row て and た fragments for exactly the readings いく and 行く,
yielding いって, いった and いったら for いく and 行って, 行った for 行く,
while every other reading ending in く receives the generic stem plus
いて and stem plus いた. -/
theorem iku_te_ta_override (r : List Char)
    (hk : jsEndsWith r (cs "く") = true) (h1 : r ≠ cs "いく") (h2 : r ≠ cs "行く") :
    pairAt (generateConjugations r "godan") 2 = some ("Te-form", jsSliceDropLast r ++ cs "いて") ∧
    pairAt (generateConjugations r "godan") 3 = some ("Ta-form", jsSliceDropLast r ++ cs "いた") ∧
    pairAt (generateConjugations (cs "いく") "godan") 2 = some ("Te-form", cs "いって") ∧
    pairAt (generateConjugations (cs "いく") "godan") 3 = some ("Ta-form", cs "いった") ∧
    pairAt (generateConjugations (cs "いく") "godan") 14 = some ("Tara-form", cs "いったら") ∧
    pairAt (generateConjugations (cs "行く") "godan") 2 = some ("Te-form", cs "行って") ∧
    pairAt (generateConjugations (cs "行く") "godan") 3 = some ("Ta-form", cs "行った") := by
  have hgen : pairAt (generateConjugations r "godan") 2 = some ("Te-form", jsSliceDropLast r ++ cs "いて") ∧
      pairAt (generateConjugations r "godan") 3 = some ("Ta-form", jsSliceDropLast r ++ cs "いた") := by
    obtain ⟨t, htr⟩ := (endsWith_iff r (cs "く")).mp hk
    have htr2 : t ++ ['く'] = r := htr
    subst htr2
    have hne : ¬(t ++ ['く'] = cs "いく" ∨ t ++ ['く'] = cs "行く") := by
      rintro (h | h)
      exacts [h1 h, h2 h]
    rw [generate_godan_eq]
    simp only [generateGodanConjugations, sliceLast_concat, sliceDropLast_concat]
    rw [show (godanMappings ['く']).getD godanRowRu = godanRowKu from rfl]
    rw [if_neg hne, if_neg hne]
    exact ⟨rfl, rfl⟩
  exact ⟨hgen.1, hgen.2, by decide, by decide, by decide, by decide, by decide⟩

/-- Claim C2 witness: the theorem applied to the reading かく, which ends
in く and is neither いく nor 行く, so its te and ta forms are the generic
かいて and かいた. -/
theorem iku_te_ta_override_witness :
    pairAt (generateConjugations (cs "かく") "godan") 2 = some ("Te-form", cs "かいて") ∧
    pairAt (generateConjugations (cs "かく") "godan") 3 = some ("Ta-form", cs "かいた") := by
  have h := iku_te_ta_override (cs "かく") (by decide) (by decide) (by decide)
  exact ⟨by rw [h.1]; rfl, by rw [h.2.1]; rfl⟩

/-- Claim C9: for every reading ending in する, generateConjugations with
verbType suru returns a 15-form table whose Dictionary entry at index 0
is the original reading: stripping the final る and then the trailing す
and re-appending する reconstructs the input. -/
theorem suru_roundtrip (r : List Char) (h : jsEndsWith r (cs "する") = true) :
    (generateConjugations r "suru").length = 15 ∧
    pairAt (generateConjugations r "suru") 0 = some ("Dictionary", r) := by
  obtain ⟨t, htr⟩ := (endsWith_iff r (cs "する")).mp h
  have htr2 : (t ++ ['す']) ++ ['る'] = r := by
    rw [List.append_assoc]
    exact htr
  subst htr2
  rw [generate_suru_eq, sliceDropLast_concat]
  have e2 : jsEndsWith (t ++ ['す']) (cs "す") = true := by
    rw [endsWith_iff]
    exact List.suffix_append t _
  simp only [generateSuruConjugations, e2, sliceDropLast_concat, if_true]
  have e4 : (if t.isEmpty then ([] : List Char) else t) = t := by
    cases t <;> simp
  rw [e4]
  refine ⟨rfl, ?_⟩
  simp only [pairAt, List.get?, Option.map_some]
  rw [List.append_assoc]
  rfl

/-- Claim C9 witness: the theorem applied to the bare reading する. -/
theorem suru_roundtrip_witness :
    (generateConjugations (cs "する") "suru").length = 15 ∧
    pairAt (generateConjugations (cs "する") "suru") 0 = some ("Dictionary", cs "する") :=
  suru_roundtrip (cs "する") (by decide)

/-- Claim C10: for every reading whose final character is not one of the
nine mapped godan morae う, く, ぐ, す, つ, ぬ, ぶ, む, る, including the
empty reading, generateConjugations with verbType godan falls back to the
る-row fragments and still returns a full 15-form table. -/
theorem godan_default_row (r : List Char)
    (h : jsSliceLast r ∉ [cs "う", cs "く", cs "ぐ", cs "す", cs "つ",
                          cs "ぬ", cs "ぶ", cs "む", cs "る"]) :
    generateConjugations r "godan" =
      [⟨"Dictionary", r, "", "Plain present/future"⟩,
       ⟨"Masu", jsSliceDropLast r ++ godanRowRu.masu ++ cs "ます", "", "Polite present/future"⟩,
       ⟨"Te-form", jsSliceDropLast r ++ godanRowRu.te, "", "Connecting, requests"⟩,
       ⟨"Ta-form", jsSliceDropLast r ++ godanRowRu.ta, "", "Plain past"⟩,
       ⟨"Mashita", jsSliceDropLast r ++ godanRowRu.masu ++ cs "ました", "", "Polite past"⟩,
       ⟨"Nai-form", jsSliceDropLast r ++ godanRowRu.nai ++ cs "ない", "", "Plain negative"⟩,
       ⟨"Masen", jsSliceDropLast r ++ godanRowRu.masu ++ cs "ません", "", "Polite negative"⟩,
       ⟨"Nakatta", jsSliceDropLast r ++ godanRowRu.nai ++ cs "なかった", "", "Plain past negative"⟩,
       ⟨"Potential", jsSliceDropLast r ++ godanRowRu.potential ++ cs "る", "", "Can do"⟩,
       ⟨"Passive", jsSliceDropLast r ++ godanRowRu.nai ++ cs "れる", "", "Is done"⟩,
       ⟨"Causative", jsSliceDropLast r ++ godanRowRu.nai ++ cs "せる", "", "Make/let do"⟩,
       ⟨"Imperative", jsSliceDropLast r ++ godanRowRu.imperative, "", "Command"⟩,
       ⟨"Volitional", jsSliceDropLast r ++ godanRowRu.volitional ++ cs "う", "", "Let\x27s do"⟩,
       ⟨"Conditional", jsSliceDropLast r ++ godanRowRu.conditional ++ cs "ば", "", "If"⟩,
       ⟨"Tara-form", (jsSliceDropLast r ++ godanRowRu.ta) ++ cs "ら", "", "If/when"⟩] ∧
    (generateConjugations r "godan").length = 15 := by
  simp only [List.mem_cons, List.mem_singleton, not_or] at h
  obtain ⟨n1, n2, n3, n4, n5, n6, n7, n8, n9, -⟩ := h
  have hmap : godanMappings (jsSliceLast r) = none := by
    simp only [godanMappings, if_neg n1, if_neg n2, if_neg n3, if_neg n4, if_neg n5,
      if_neg n6, if_neg n7, if_neg n8, if_neg n9]
  have hik1 : r ≠ cs "いく" := by
    intro e
    exact n2 (by rw [e]; rfl)
  have hik2 : r ≠ cs "行く" := by
    intro e
    exact n2 (by rw [e]; rfl)
  have hne : ¬(r = cs "いく" ∨ r = cs "行く") := by
    rintro (e | e)
    exacts [hik1 e, hik2 e]
  rw [generate_godan_eq]
  simp only [generateGodanConjugations, hmap, Option.getD_none, if_neg hne]
  exact ⟨trivial, rfl⟩

/-- Claim C10 witness: the theorem applied to the empty reading, whose
final character is the empty string and which still yields 15 forms. -/
theorem godan_default_row_witness :
    (generateConjugations ([] : List Char) "godan").length = 15 :=
  (godan_default_row [] (by decide)).2

/-- Claim C6: whenever the joined lower-cased tags contain the substring
adverb and none of the verb sub-type keywords ichidan, v1, godan, v5,
suru, vs-, kuru, vk nor counter, detectCategory returns the category
adverb with no verb type, even when the substring verb also occurs,
because the adverb rule precedes the generic verb catch-all. -/
theorem adverb_precedence (tags : List (List Char))
    (hv : hasVerbSubtypeKeyword tags = false)
    (hc : jsIncludes (jsToLower (jsJoinSpace tags)) (cs "counter") = false)
    (ha : jsIncludes (jsToLower (jsJoinSpace tags)) (cs "adverb") = true) :
    detectCategory tags = ⟨"adverb", none⟩ := by
  simp only [hasVerbSubtypeKeyword, Bool.or_eq_false_iff] at hv
  obtain ⟨⟨⟨⟨⟨⟨⟨h1, h2⟩, h3⟩, h4⟩, h5⟩, h6⟩, h7⟩, h8⟩ := hv
  simp only [detectCategory, h1, h2, h3, h4, h5, h6, h7, h8, hc, ha,
    Bool.or_self, if_true, if_false, Bool.false_eq_true, ite_true, ite_false]

/-- Claim C6 witness: the theorem applied to the single adversarial tag
adverbial-verb-form, which contains verb as a substring yet classifies as
adverb. -/
theorem adverb_precedence_witness :
    detectCategory [cs "adverbial-verb-form"] = ⟨"adverb", none⟩ :=
  adverb_precedence [cs "adverbial-verb-form"] (by decide) (by decide) (by decide)

/-- Claim C7: the word-detail dispatch returns the empty table for every
non-conjugable category, and for category verb with an absent verb
sub-type or one outside ichidan, godan, suru, kuru; likewise
generateConjugations itself returns the empty table for any verb type
outside those four. No error is possible since both functions are
total. -/
theorem nonconjugable_empty (hira : List Char) (cat : String) (vt : Option String) (s : String)
    (hcat : cat = "verb" → ∀ u, vt = some u → ¬(u = "ichidan" ∨ u = "godan" ∨ u = "suru" ∨ u = "kuru"))
    (ha : cat ≠ "adjective-i") (hb : cat ≠ "adjective-na")
    (hs : ¬(s = "ichidan" ∨ s = "godan" ∨ s = "suru" ∨ s = "kuru")) :
    wordDetailConjugations cat vt hira = [] ∧ generateConjugations hira s = [] := by
  have hgen : ∀ u : String, ¬(u = "ichidan" ∨ u = "godan" ∨ u = "suru" ∨ u = "kuru") →
      generateConjugations hira u = [] := by
    intro u hu
    push_neg at hu
    obtain ⟨u1, u2, u3, u4⟩ := hu
    simp only [generateConjugations, if_neg u1, if_neg u2, if_neg u3, if_neg u4]
  refine ⟨?_, hgen s hs⟩
  by_cases hcv : cat = "verb"
  · subst hcv
    cases vt with
    | none => simp [wordDetailConjugations, jsTruthy, ha, hb]
    | some u =>
      by_cases hu0 : u = ""
      · subst hu0
        simp [wordDetailConjugations, jsTruthy, ha, hb]
      · have hne := hcat rfl u rfl
        simp [wordDetailConjugations, jsTruthy, hu0, Option.getD_some]
        exact hgen u hne
  · simp [wordDetailConjugations, hcv, ha, hb]

/-- Claim C7 witness: the theorem applied to category noun with no verb
type on the reading ねこ, and to the unrecognised verb type other. -/
theorem nonconjugable_empty_witness :
    wordDetailConjugations "noun" none (cs "ねこ") = [] ∧
    generateConjugations (cs "ねこ") "other" = [] :=
  nonconjugable_empty (cs "ねこ") "noun" none "other"
    (fun h => absurd h (by decide)) (by decide) (by decide) (by decide)

end VocabVault

